import Mathlib

/-!
# Verification of the result-extraction and chat-handler pipeline

Shallow embedding of `src/main.py` and `src/streamlit.py`.

Python objects consumed by the extractors are loosely typed: attributes may
be absent (`hasattr` checks) and values may have unexpected types.  We model
each consumed attribute as an `Option`; an absent attribute is `none`.

`json.loads` is Python standard-library code, external to this repository,
so the extractors are parameterised over an abstract parse function
`loads : String → Option Json` (`some j` = the string parses to the JSON
value `j`, `none` = `json.JSONDecodeError`).  When the value handed to
`json.loads` is not a `str`/`bytes`/`bytearray` at all, CPython raises
`TypeError`, which is *not* caught by the `except json.JSONDecodeError`
clause in `extract_tool_executions`; the model makes that path explicit
with `PyArg.nonStr`.
-/

/-- Parsed JSON values, the codomain of `json.loads`. -/
inductive Json where
  | null : Json
  | bool (b : Bool) : Json
  | num (n : Int) : Json
  | str (s : String) : Json
  | arr (xs : List Json) : Json
  | obj (kvs : List (String × Json)) : Json
deriving Repr

/-- The Python value found in an `arguments` attribute: either a `str`
(the expected case), or any other Python value, on which `json.loads`
raises `TypeError` (we record the class name for the error text). -/
inductive PyArg where
  | str (s : String) : PyArg
  | nonStr (className : String) : PyArg
deriving Repr, DecidableEq

/-- One unit of model output (`OutputItem`).  Only the attributes the source
reads are modelled; each may be absent. -/
structure OutputItem where
  name : Option String
  arguments : Option PyArg
  call_id : Option String
deriving Repr, DecidableEq

/-- `usage.input_tokens_details`: a nested details object whose
`cached_tokens` attribute may be absent. -/
structure InputTokensDetails where
  cached_tokens : Option Nat
deriving Repr, DecidableEq

/-- A usage record.  `input_tokens_details` is doubly optional: the outer
`Option` is attribute presence (`hasattr`), the inner `Option` is Python
truthiness (`none` = the attribute holds `None`, which is falsy). -/
structure Usage where
  input_tokens : Option Nat
  output_tokens : Option Nat
  total_tokens : Option Nat
  input_tokens_details : Option (Option InputTokensDetails)
deriving Repr, DecidableEq

/-- One raw model-call record (`RawResponseRecord`). -/
structure RawResponse where
  output : Option (List OutputItem)
  usage : Option Usage
deriving Repr, DecidableEq

/-- The agent runtime's output for one invocation (`RunResult`).
`str_repr` models Python's `str(result)`, used by the chat handler when
`final_output` is absent. -/
structure RunResult where
  raw_responses : Option (List RawResponse)
  final_output : Option String
  str_repr : String
deriving Repr, DecidableEq

/-- The `arguments` field of a derived `ToolExecution`: the parsed JSON
value on parse success, the original raw string on `JSONDecodeError`. -/
inductive ArgsValue where
  | json (j : Json) : ArgsValue
  | raw (s : String) : ArgsValue
deriving Repr

/-- A derived tool-execution record `{name, arguments, call_id}`. -/
structure ToolExecution where
  name : String
  arguments : ArgsValue
  call_id : String
deriving Repr

/-- The derived usage summary `{"input", "output", "total", "cached"}`. -/
structure UsageInfo where
  input : Nat
  output : Nat
  total : Nat
  cached : Nat
deriving Repr, DecidableEq

/-- An uncaught Python exception escaping an extractor.  The only such
exception reachable in the model is the `TypeError` raised by `json.loads`
on a non-string argument value. -/
inductive PyError where
  | typeError (msg : String) : PyError
deriving Repr, DecidableEq

/-- The message text CPython attaches to the `TypeError` from `json.loads`. -/
def typeErrorMsg (className : String) : String :=
  "the JSON object must be str, bytes or bytearray, not " ++ className

/-- `try: json.loads(s) except json.JSONDecodeError: s` — the parsed value,
or the original string verbatim on parse failure. -/
def parse_args (loads : String → Option Json) (s : String) : ArgsValue :=
  match loads s with
  | some j => ArgsValue.json j
  | none => ArgsValue.raw s

/-- The body of the inner loop of `extract_tool_executions`
(`src/main.py` lines 207–217) for one `OutputItem`: `.ok none` when the
item lacks `name` or `arguments`, `.ok (some e)` when a record is appended,
`.error` when `json.loads` raises `TypeError` on a non-string value. -/
def process_output_item (loads : String → Option Json) (item : OutputItem) :
    Except PyError (Option ToolExecution) :=
  match item.name, item.arguments with
  | some nm, some (PyArg.str s) =>
      Except.ok (some { name := nm, arguments := parse_args loads s,
                        call_id := item.call_id.getD "unknown" })
  | some _, some (PyArg.nonStr cls) =>
      Except.error (PyError.typeError (typeErrorMsg cls))
  | _, _ => Except.ok none

/-- The inner `for output_item in raw_response.output` loop of
`extract_tool_executions`, returning the records appended by this record. -/
def output_items_loop (loads : String → Option Json) :
    List OutputItem → Except PyError (List ToolExecution)
  | [] => Except.ok []
  | item :: rest =>
    match process_output_item loads item with
    | Except.error e => Except.error e
    | Except.ok head =>
      match output_items_loop loads rest with
      | Except.error e => Except.error e
      | Except.ok tail =>
        Except.ok (match head with
                   | some e => e :: tail
                   | none => tail)

/-- The outer `for raw_response in result.raw_responses` loop of
`extract_tool_executions`; records lacking an `output` attribute are
skipped (`continue`). -/
def raw_responses_loop (loads : String → Option Json) :
    List RawResponse → Except PyError (List ToolExecution)
  | [] => Except.ok []
  | r :: rest =>
    match r.output with
    | none => raw_responses_loop loads rest
    | some items =>
      match output_items_loop loads items with
      | Except.error e => Except.error e
      | Except.ok head =>
        match raw_responses_loop loads rest with
        | Except.error e => Except.error e
        | Except.ok tail => Except.ok (head ++ tail)

/-- `extract_tool_executions` (`src/main.py` lines 195–219).  Returns
`.ok` with the accumulated list on normal termination, `.error` when an
exception propagates out. -/
def extract_tool_executions (loads : String → Option Json)
    (result : RunResult) : Except PyError (List ToolExecution) :=
  match result.raw_responses with
  | none => Except.ok []
  | some rs => raw_responses_loop loads rs

/-- The `usage_info.update(...)` block plus the cached-token conditional of
`extract_usage_info` (`src/main.py` lines 230–241), applied to the usage
object of the first matching record. -/
def usage_info_of (u : Usage) : UsageInfo :=
  { input := u.input_tokens.getD 0
    output := u.output_tokens.getD 0
    total := u.total_tokens.getD 0
    cached :=
      match u.input_tokens_details with
      | some (some d) =>
        match d.cached_tokens with
        | some c => c
        | none => 0
      | _ => 0 }

/-- The `for raw_response in result.raw_responses` loop of
`extract_usage_info`: stops (`break`) at the first record exposing a
`usage` attribute. -/
def usage_loop : List RawResponse → UsageInfo
  | [] => { input := 0, output := 0, total := 0, cached := 0 }
  | r :: rest =>
    match r.usage with
    | some u => usage_info_of u
    | none => usage_loop rest

/-- `extract_usage_info` (`src/main.py` lines 221–244). -/
def extract_usage_info (result : RunResult) : UsageInfo :=
  match result.raw_responses with
  | none => { input := 0, output := 0, total := 0, cached := 0 }
  | some rs => usage_loop rs

/-!
## Inline extraction in the interactive surface (`src/streamlit.py`)

`stream_response` (lines 109–131) re-implements tool-execution extraction
inline.  It is translated here independently from its own source: the
`try` block wraps both `json.loads` and the append of the parsed record,
and the `except json.JSONDecodeError` branch appends the record with the
raw string instead.
-/

/-- The per-item body of the inline extraction in `stream_response`
(`src/streamlit.py` lines 117–131). -/
def streamlit_process_item (loads : String → Option Json) (item : OutputItem) :
    Except PyError (Option ToolExecution) :=
  match item.name, item.arguments with
  | some nm, some (PyArg.str s) =>
      Except.ok (some
        (match loads s with
         | some j => { name := nm, arguments := ArgsValue.json j,
                       call_id := item.call_id.getD "unknown" }
         | none => { name := nm, arguments := ArgsValue.raw s,
                     call_id := item.call_id.getD "unknown" }))
  | some _, some (PyArg.nonStr cls) =>
      Except.error (PyError.typeError (typeErrorMsg cls))
  | _, _ => Except.ok none

/-- The inner `for output_item in raw_response.output` loop of the inline
extraction in `stream_response`. -/
def streamlit_items_loop (loads : String → Option Json) :
    List OutputItem → Except PyError (List ToolExecution)
  | [] => Except.ok []
  | item :: rest =>
    match streamlit_process_item loads item with
    | Except.error e => Except.error e
    | Except.ok head =>
      match streamlit_items_loop loads rest with
      | Except.error e => Except.error e
      | Except.ok tail =>
        Except.ok (match head with
                   | some e => e :: tail
                   | none => tail)

/-- The outer `for raw_response in result.raw_responses` loop of the
inline extraction in `stream_response`; a record lacking `output` is
skipped by the `if hasattr(raw_response, 'output')` guard. -/
def streamlit_responses_loop (loads : String → Option Json) :
    List RawResponse → Except PyError (List ToolExecution)
  | [] => Except.ok []
  | r :: rest =>
    match r.output with
    | none => streamlit_responses_loop loads rest
    | some items =>
      match streamlit_items_loop loads items with
      | Except.error e => Except.error e
      | Except.ok head =>
        match streamlit_responses_loop loads rest with
        | Except.error e => Except.error e
        | Except.ok tail => Except.ok (head ++ tail)

/-- The whole inline extraction of `stream_response`
(`src/streamlit.py` lines 109–131), guarded by
`if hasattr(result, 'raw_responses')`. -/
def streamlit_tool_executions (loads : String → Option Json)
    (result : RunResult) : Except PyError (List ToolExecution) :=
  match result.raw_responses with
  | none => Except.ok []
  | some rs => streamlit_responses_loop loads rs

/-!
## The chat handler (`src/main.py` lines 135–170) and settings payloads

The handler's effects are modelled purely: the form is a record with an
optional `message` field (`form_data.get("message", "")` yields `""` when
the field is missing); the agent run is a function from the question text
to an outcome (a `RunResult`, or a raised exception carrying `str(e)`);
the two template responses are the two constructors of `ChatResponse`.
Python's `str.strip()` is modelled by `py_strip`, which removes leading
and trailing whitespace characters.
-/

/-- Python's `str.strip()`: the string with leading and trailing
whitespace removed. -/
def py_strip (s : String) : String :=
  String.mk
    (((s.data.dropWhile Char.isWhitespace).reverse.dropWhile
        Char.isWhitespace).reverse)

/-- The submitted form: the `message` field may be missing entirely. -/
structure FormData where
  message : Option String
deriving Repr, DecidableEq

/-- The rendered response of `POST /api/chat`: either the
`error_response.html` fragment with an error string, or the
`chat_response.html` fragment with `{content, tool_executions, usage}`. -/
inductive ChatResponse where
  | errorFragment (error : String) : ChatResponse
  | chatFragment (content : String) (tool_executions : List ToolExecution)
      (usage : UsageInfo) : ChatResponse
deriving Repr

/-- Outcome of `await Runner.run(agent, message)`: a result object, or an
exception whose `str(e)` is the carried message. -/
inductive RunOutcome where
  | ok (r : RunResult) : RunOutcome
  | raises (msg : String) : RunOutcome
deriving Repr

/-- Python's `needle in hay` substring test on strings. -/
def py_in (needle hay : String) : Bool :=
  hay.data.tails.any (fun t => needle.data.isPrefixOf t)

/-- The user-facing message for an empty/whitespace-only submission. -/
def msg_enter_message : String := "メッセージを入力してください。"

/-- The user-facing message when the agent failed to initialise. -/
def msg_agent_unavailable : String :=
  "エージェントが初期化されていません。アプリケーションを再起動してください。"

/-- The rate-limit message advising a 60-second wait. -/
def msg_rate_limit : String := "レート制限に達しました。60秒後に再試行してください。"

/-- The substring matched against `str(e)` to detect a rate limit. -/
def rate_limit_indicator : String := "RateLimitReached"

/-- The `except Exception as e` branch of `chat` (`src/main.py`
lines 163–170): substring match on the error text. -/
def chat_exception_response (m : String) : ChatResponse :=
  if py_in rate_limit_indicator m then
    ChatResponse.errorFragment msg_rate_limit
  else
    ChatResponse.errorFragment ("実行エラー: " ++ m)

/-- The question text `chat` passes to the run:
`form_data.get("message", "").strip()` (`src/main.py` line 141). -/
def chat_question (form : FormData) : String :=
  py_strip (form.message.getD "")

/-- The `chat` handler (`src/main.py` lines 135–170).
`agent_available` models `agent is not None` after startup; `run` models
`Runner.run` applied to the shared agent.  An exception escaping the
extraction inside the `try` block is caught by the same
`except Exception` clause as a run failure. -/
def chat (loads : String → Option Json) (agent_available : Bool)
    (form : FormData) (run : String → RunOutcome) : ChatResponse :=
  let message := chat_question form
  if message = "" then
    ChatResponse.errorFragment msg_enter_message
  else if agent_available = false then
    ChatResponse.errorFragment msg_agent_unavailable
  else
    match run message with
    | RunOutcome.raises m => chat_exception_response m
    | RunOutcome.ok r =>
      match extract_tool_executions loads r with
      | Except.error (PyError.typeError m) => chat_exception_response m
      | Except.ok tools =>
        ChatResponse.chatFragment (r.final_output.getD r.str_repr) tools
          (extract_usage_info r)

/-- The environment the module-level `os.getenv` calls read.  `none` means
the variable is unset; `some s` is its raw string value. -/
structure Env where
  azure_openai_endpoint : Option String
  azure_openai_api_key : Option String
  azure_openai_deployment_name : Option String
  azure_openai_api_version : Option String
  mcp_server_package : Option String
deriving Repr, DecidableEq

/-- `AZURE_OPENAI_API_VERSION = os.getenv(..., "2024-02-15-preview")`. -/
def azure_api_version_value (env : Env) : String :=
  env.azure_openai_api_version.getD "2024-02-15-preview"

/-- `MCP_SERVER_PACKAGE = os.getenv(..., "awslabs...@latest")`. -/
def mcp_package_value (env : Env) : String :=
  env.mcp_server_package.getD "awslabs.aws-documentation-mcp-server@latest"

/-- Python truthiness of an `os.getenv` result: `bool(None)` and
`bool("")` are false, any non-empty string is true. -/
def py_truthy (o : Option String) : Bool :=
  match o with
  | none => false
  | some s => s != ""

/-- The `config` dictionary rendered into a template. -/
structure ConfigPayload where
  endpoint : Bool
  deployment : Bool
  apiVersion : String
  mcpServer : String
deriving Repr, DecidableEq

/-- The `config` dictionary built by `read_root` for `GET /`
(`src/main.py` lines 122–127). -/
def read_root_config (env : Env) : ConfigPayload :=
  { endpoint := py_truthy env.azure_openai_endpoint
    deployment := py_truthy env.azure_openai_deployment_name
    apiVersion := azure_api_version_value env
    mcpServer := mcp_package_value env }

/-- The `config` dictionary built by `get_settings` for
`GET /api/settings` (`src/main.py` lines 183–188). -/
def get_settings_config (env : Env) : ConfigPayload :=
  { endpoint := py_truthy env.azure_openai_endpoint
    deployment := py_truthy env.azure_openai_deployment_name
    apiVersion := azure_api_version_value env
    mcpServer := mcp_package_value env }

/-!
## Derived predicates used to state the theorems
-/

/-- The record `extract_tool_executions` appends for one qualifying item
(an item exposing both a `name` and a string-valued `arguments`); `none`
for every other item. -/
def qualifying_exec (loads : String → Option Json) (it : OutputItem) :
    Option ToolExecution :=
  match it.name, it.arguments with
  | some nm, some (PyArg.str s) =>
      some { name := nm, arguments := parse_args loads s,
             call_id := it.call_id.getD "unknown" }
  | _, _ => none

/-- An item on which `json.loads` is reached with a non-string value:
both `name` and `arguments` are present but `arguments` is not a string. -/
def bad_item (it : OutputItem) : Bool :=
  match it.name, it.arguments with
  | some _, some (PyArg.nonStr _) => true
  | _, _ => false

/-- Every output item of every record has a string-valued `arguments`
whenever it also has a `name` (so `json.loads` never sees a non-string). -/
def no_bad_items (result : RunResult) : Bool :=
  match result.raw_responses with
  | none => true
  | some rs =>
    rs.all (fun r => (r.output.getD []).all (fun it => !(bad_item it)))

/-- A concrete parse function standing in for `json.loads` in witnesses:
parses the two argument strings the witnesses use and rejects the rest. -/
def loads0 : String → Option Json := fun s =>
  if s = "\x7b\"q\": \"agentcore\"\x7d" then
    some (Json.obj [("q", Json.str "agentcore")])
  else
    none

example :
    extract_tool_executions (fun _ => none)
      { raw_responses := some
          [ { output := none, usage := none },
            { output := some
                [ { name := some "search_docs",
                    arguments := some (PyArg.str "not json"),
                    call_id := some "c1" } ],
              usage := none } ],
        final_output := none, str_repr := "r" } =
    Except.ok
      [ { name := "search_docs", arguments := ArgsValue.raw "not json",
          call_id := "c1" } ] := rfl

/-!
## Helper lemmas
-/

theorem usage_loop_skip (rs1 rest : List RawResponse)
    (h : ∀ p ∈ rs1, p.usage = none) :
    usage_loop (rs1 ++ rest) = usage_loop rest := by
  induction rs1 with
  | nil => rfl
  | cons p ps ih =>
    have hp : p.usage = none := h p (by simp)
    simp only [List.cons_append, usage_loop, hp]
    exact ih fun q hq => h q (by simp [hq])

theorem process_output_item_ok (loads : String → Option Json)
    (it : OutputItem) (o : Option ToolExecution)
    (h : process_output_item loads it = Except.ok o) :
    o = qualifying_exec loads it ∧ bad_item it = false := by
  obtain ⟨n, a, c⟩ := it
  rcases n with _ | nm <;> rcases a with _ | (s | cls) <;>
    simp_all [process_output_item, qualifying_exec, bad_item]

theorem output_items_loop_ok (loads : String → Option Json)
    (items : List OutputItem) (t : List ToolExecution)
    (h : output_items_loop loads items = Except.ok t) :
    t = items.filterMap (qualifying_exec loads)
    ∧ ∀ it ∈ items, bad_item it = false := by
  induction items generalizing t with
  | nil =>
    simp only [output_items_loop, Except.ok.injEq] at h
    simp [← h]
  | cons item rest ih =>
    simp only [output_items_loop] at h
    cases hpi : process_output_item loads item with
    | error e => simp [hpi] at h
    | ok head =>
      simp only [hpi] at h
      cases hrest : output_items_loop loads rest with
      | error e => simp [hrest] at h
      | ok tail =>
        simp only [hrest, Except.ok.injEq] at h
        obtain ⟨ht, hb⟩ := ih tail hrest
        obtain ⟨ho, hbad⟩ := process_output_item_ok loads item head hpi
        subst h
        constructor
        · rw [List.filterMap_cons, ← ho, ← ht]
          cases head <;> rfl
        · intro it hit
          rcases List.mem_cons.mp hit with rfl | hmem
          · exact hbad
          · exact hb it hmem

theorem raw_responses_loop_ok (loads : String → Option Json)
    (rs : List RawResponse) (L : List ToolExecution)
    (h : raw_responses_loop loads rs = Except.ok L) :
    L = rs.flatMap (fun r => (r.output.getD []).filterMap (qualifying_exec loads))
    ∧ ∀ r ∈ rs, ∀ it ∈ r.output.getD [], bad_item it = false := by
  induction rs generalizing L with
  | nil =>
    simp only [raw_responses_loop, Except.ok.injEq] at h
    simp [← h]
  | cons r rest ih =>
    simp only [raw_responses_loop] at h
    cases hout : r.output with
    | none =>
      simp only [hout] at h
      obtain ⟨hL, hb⟩ := ih L h
      constructor
      · rw [hL]; simp [hout]
      · intro q hq it hit
        rcases List.mem_cons.mp hq with rfl | hmem
        · rw [hout] at hit; simp at hit
        · exact hb q hmem it hit
    | some items =>
      simp only [hout] at h
      cases hil : output_items_loop loads items with
      | error e => simp [hil] at h
      | ok head =>
        simp only [hil] at h
        cases hrl : raw_responses_loop loads rest with
        | error e => simp [hrl] at h
        | ok tail =>
          simp only [hrl, Except.ok.injEq] at h
          obtain ⟨hhead, hbi⟩ := output_items_loop_ok loads items head hil
          obtain ⟨htail, hb⟩ := ih tail hrl
          constructor
          · rw [← h, hhead, htail]; simp [hout]
          · intro q hq it hit
            rcases List.mem_cons.mp hq with rfl | hmem
            · rw [hout] at hit
              exact hbi it (by simpa using hit)
            · exact hb q hmem it hit

theorem length_filterMap_eq_countP_isSome {α β : Type} (f : α → Option β)
    (l : List α) :
    (l.filterMap f).length = l.countP (fun a => (f a).isSome) := by
  induction l with
  | nil => rfl
  | cons a l ih =>
    rw [List.filterMap_cons, List.countP_cons]
    cases hfa : f a <;> simp [hfa, ih]

theorem qualifying_isSome_of_not_bad (loads : String → Option Json)
    (it : OutputItem) (h : bad_item it = false) :
    (qualifying_exec loads it).isSome
      = (it.name.isSome && it.arguments.isSome) := by
  obtain ⟨n, a, c⟩ := it
  rcases n with _ | nm <;> rcases a with _ | (s | cls) <;>
    simp_all [qualifying_exec, bad_item]

theorem flatMap_filterMap_length (loads : String → Option Json)
    (rs : List RawResponse)
    (hb : ∀ r ∈ rs, ∀ it ∈ r.output.getD [], bad_item it = false) :
    (rs.flatMap
        (fun r => (r.output.getD []).filterMap (qualifying_exec loads))).length
    = (rs.flatMap (fun r => r.output.getD [])).countP
        (fun it => it.name.isSome && it.arguments.isSome) := by
  induction rs with
  | nil => rfl
  | cons r rest ih =>
    rw [List.flatMap_cons, List.flatMap_cons, List.length_append,
        List.countP_append]
    have h1 : ((r.output.getD []).filterMap (qualifying_exec loads)).length
        = (r.output.getD []).countP
            (fun it => it.name.isSome && it.arguments.isSome) := by
      rw [length_filterMap_eq_countP_isSome]
      apply List.countP_congr
      intro it hit
      rw [qualifying_isSome_of_not_bad loads it (hb r (by simp) it hit)]
    rw [h1, ih fun q hq it hit => hb q (by simp [hq]) it hit]

theorem process_output_item_isOk (loads : String → Option Json)
    (it : OutputItem) (h : bad_item it = false) :
    ∃ o, process_output_item loads it = Except.ok o := by
  obtain ⟨n, a, c⟩ := it
  rcases n with _ | nm <;> rcases a with _ | (s | cls) <;>
    simp_all [process_output_item, bad_item]

theorem output_items_loop_isOk (loads : String → Option Json)
    (items : List OutputItem)
    (h : ∀ it ∈ items, bad_item it = false) :
    ∃ t, output_items_loop loads items = Except.ok t := by
  induction items with
  | nil => exact ⟨[], rfl⟩
  | cons it rest ih =>
    obtain ⟨o, ho⟩ := process_output_item_isOk loads it (h it (by simp))
    obtain ⟨t, ht⟩ := ih fun x hx => h x (by simp [hx])
    cases o with
    | some e => exact ⟨e :: t, by simp only [output_items_loop, ho, ht]⟩
    | none => exact ⟨t, by simp only [output_items_loop, ho, ht]⟩

theorem raw_responses_loop_isOk (loads : String → Option Json)
    (rs : List RawResponse)
    (h : ∀ r ∈ rs, ∀ it ∈ r.output.getD [], bad_item it = false) :
    ∃ L, raw_responses_loop loads rs = Except.ok L := by
  induction rs with
  | nil => exact ⟨[], rfl⟩
  | cons r rest ih =>
    obtain ⟨L, hL⟩ := ih fun q hq it hit => h q (by simp [hq]) it hit
    cases hout : r.output with
    | none => exact ⟨L, by simp only [raw_responses_loop, hout, hL]⟩
    | some items =>
      obtain ⟨t, ht⟩ := output_items_loop_isOk loads items
        (fun it hit => h r (by simp) it (by simp [hout, hit]))
      exact ⟨t ++ L, by simp only [raw_responses_loop, hout, ht, hL]⟩

theorem streamlit_item_eq (loads : String → Option Json) (it : OutputItem) :
    streamlit_process_item loads it = process_output_item loads it := by
  obtain ⟨n, a, c⟩ := it
  rcases n with _ | nm
  · rcases a with _ | (s | cls) <;> rfl
  · rcases a with _ | (s | cls)
    · rfl
    · simp only [streamlit_process_item, process_output_item, parse_args]
      cases loads s <;> rfl
    · rfl

theorem streamlit_items_eq (loads : String → Option Json)
    (items : List OutputItem) :
    streamlit_items_loop loads items = output_items_loop loads items := by
  induction items with
  | nil => rfl
  | cons it rest ih =>
    simp only [streamlit_items_loop, output_items_loop, streamlit_item_eq, ih]

theorem streamlit_responses_eq (loads : String → Option Json)
    (rs : List RawResponse) :
    streamlit_responses_loop loads rs = raw_responses_loop loads rs := by
  induction rs with
  | nil => rfl
  | cons r rest ih =>
    simp only [streamlit_responses_loop, raw_responses_loop,
               streamlit_items_eq, ih]

/-!
## Claim theorems
-/

/-- Claim C1: for every output item exposing both a `name` and an
`arguments` string, `extract_tool_executions` appends exactly one record
whose `name` is the item's name, whose `arguments` is the JSON-parsed
value when the string parses and the original string unchanged otherwise,
and whose `call_id` is the item's `call_id` when present and the literal
`"unknown"` otherwise; an item lacking `name` or `arguments` produces no
record. -/
theorem C1_per_item_record (loads : String → Option Json)
    (item : OutputItem) (fo : Option String) (sr : String) :
    (∀ nm s, item.name = some nm → item.arguments = some (PyArg.str s) →
      extract_tool_executions loads
        { raw_responses := some [{ output := some [item], usage := none }],
          final_output := fo, str_repr := sr } =
      Except.ok [{ name := nm
                   arguments := match loads s with
                                | some j => ArgsValue.json j
                                | none => ArgsValue.raw s
                   call_id := item.call_id.getD "unknown" }])
    ∧ ((item.name = none ∨ item.arguments = none) →
      extract_tool_executions loads
        { raw_responses := some [{ output := some [item], usage := none }],
          final_output := fo, str_repr := sr } = Except.ok []) := by
  obtain ⟨n, a, c⟩ := item
  constructor
  · intro nm s hn ha
    simp only at hn ha
    subst hn
    subst ha
    cases hls : loads s <;>
      simp [extract_tool_executions, raw_responses_loop, output_items_loop,
            process_output_item, parse_args, hls]
  · rintro (hn | ha)
    · simp only at hn
      subst hn
      rcases a with _ | arg <;>
        simp [extract_tool_executions, raw_responses_loop, output_items_loop,
              process_output_item]
    · simp only at ha
      subst ha
      rcases n with _ | nm <;>
        simp [extract_tool_executions, raw_responses_loop, output_items_loop,
              process_output_item]

/-- Instantiation of the C1 theorem: an item with a valid-JSON arguments
string and no `call_id` attribute yields one record with the parsed
arguments and `call_id = "unknown"`. -/
theorem C1_per_item_record_witness :
    extract_tool_executions loads0
      { raw_responses := some
          [ { output := some
                [ { name := some "search_docs"
                    arguments := some (PyArg.str "\x7b\"q\": \"agentcore\"\x7d")
                    call_id := none } ]
              usage := none } ]
        final_output := none, str_repr := "r" } =
      Except.ok [ { name := "search_docs"
                    arguments :=
                      ArgsValue.json (Json.obj [("q", Json.str "agentcore")])
                    call_id := "unknown" } ] :=
  (C1_per_item_record loads0
      { name := some "search_docs"
        arguments := some (PyArg.str "\x7b\"q\": \"agentcore\"\x7d")
        call_id := none } none "r").1
    "search_docs" "\x7b\"q\": \"agentcore\"\x7d" rfl rfl

/-- Claim C2: `extract_usage_info` returns the token counts of the first
record exposing a usage object only — each count defaulting to `0` when
absent, `cached` filled only when a truthy details sub-object with a
cached-token field exists — and ignores all later records. -/
theorem C2_first_usage_record (rs1 rs2 : List RawResponse)
    (r : RawResponse) (u : Usage) (fo : Option String) (sr : String)
    (hpre : ∀ p ∈ rs1, p.usage = none) (hu : r.usage = some u) :
    extract_usage_info
      { raw_responses := some (rs1 ++ r :: rs2),
        final_output := fo, str_repr := sr } =
      { input := u.input_tokens.getD 0
        output := u.output_tokens.getD 0
        total := u.total_tokens.getD 0
        cached := match u.input_tokens_details with
                  | some (some d) => d.cached_tokens.getD 0
                  | _ => 0 } := by
  show usage_loop (rs1 ++ r :: rs2) = _
  rw [usage_loop_skip rs1 (r :: rs2) hpre]
  simp only [usage_loop, hu]
  cases hd : u.input_tokens_details with
  | none => simp [usage_info_of, hd]
  | some od =>
    cases od with
    | none => simp [usage_info_of, hd]
    | some d => cases hc : d.cached_tokens <;> simp [usage_info_of, hd, hc]

/-- Instantiation of the C2 theorem: three records, the second is the
first with usage (input 10, missing output, total 15, cached 3); the
third record's larger counts are ignored. -/
theorem C2_first_usage_record_witness :
    extract_usage_info
      { raw_responses := some
          [ { output := none, usage := none },
            { output := none
              usage := some
                { input_tokens := some 10, output_tokens := none
                  total_tokens := some 15
                  input_tokens_details :=
                    some (some { cached_tokens := some 3 }) } },
            { output := none
              usage := some
                { input_tokens := some 100, output_tokens := some 50
                  total_tokens := some 150
                  input_tokens_details := none } } ]
        final_output := none, str_repr := "r" } =
      { input := 10, output := 0, total := 15, cached := 3 } :=
  C2_first_usage_record
    [{ output := none, usage := none }]
    [{ output := none
       usage := some
         { input_tokens := some 100, output_tokens := some 50
           total_tokens := some 150, input_tokens_details := none } }]
    { output := none
      usage := some
        { input_tokens := some 10, output_tokens := none
          total_tokens := some 15
          input_tokens_details := some (some { cached_tokens := some 3 }) } }
    { input_tokens := some 10, output_tokens := none
      total_tokens := some 15
      input_tokens_details := some (some { cached_tokens := some 3 }) }
    none "r" (by decide) rfl

/-- Claim C3: a result with no `raw_responses` attribute yields the empty
execution list and the all-zero usage record, and neither extractor
raises. -/
theorem C3_missing_raw_responses (loads : String → Option Json)
    (fo : Option String) (sr : String) :
    extract_tool_executions loads
      { raw_responses := none, final_output := fo, str_repr := sr } =
      Except.ok []
    ∧ extract_usage_info
        { raw_responses := none, final_output := fo, str_repr := sr } =
      { input := 0, output := 0, total := 0, cached := 0 } :=
  ⟨rfl, rfl⟩

/-- Claim C4: whenever `extract_tool_executions` terminates normally, its
result is the in-order concatenation, over all records (records lacking an
`output` sequence contributing nothing), of the records built from each
record's qualifying items in order, without deduplication, and its length
is the number of qualifying items. -/
theorem C4_ordered_concatenation (loads : String → Option Json)
    (rs : List RawResponse) (fo : Option String) (sr : String)
    (L : List ToolExecution)
    (h : extract_tool_executions loads
        { raw_responses := some rs, final_output := fo, str_repr := sr } =
      Except.ok L) :
    L = rs.flatMap
        (fun r => (r.output.getD []).filterMap (qualifying_exec loads))
    ∧ L.length = (rs.flatMap (fun r => r.output.getD [])).countP
        (fun it => it.name.isSome && it.arguments.isSome) := by
  obtain ⟨hL, hb⟩ := raw_responses_loop_ok loads rs L h
  refine ⟨hL, ?_⟩
  rw [hL]
  exact flatMap_filterMap_length loads rs hb

/-- Counterexample to claim C5 as stated: an output item whose `arguments`
attribute holds a non-string value (here a Python `int`).  `json.loads`
raises `TypeError`, the `except json.JSONDecodeError` clause does not
catch it, and the error propagates out of `extract_tool_executions`
instead of degrading to a default value. -/
theorem C5_counterexample :
    extract_tool_executions loads0
      { raw_responses := some
          [ { output := some
                [ { name := some "search_docs"
                    arguments := some (PyArg.nonStr "int")
                    call_id := some "c1" } ]
              usage := none } ]
        final_output := none, str_repr := "r" } =
      Except.error (PyError.typeError
        "the JSON object must be str, bytes or bytearray, not int") := rfl

/-- Claim C5 (amended): for every input whose output items carry a
string-valued `arguments` whenever they also carry a `name` — attributes
may otherwise be absent at every level — `extract_tool_executions`
terminates normally and returns a value; `extract_usage_info` is total on
all modelled inputs.  (Unamended, the claim fails: a non-string
`arguments` value makes `json.loads` raise an uncaught `TypeError`.) -/
theorem C5_graceful_degradation (loads : String → Option Json)
    (result : RunResult) (h : no_bad_items result = true) :
    ∃ L, extract_tool_executions loads result = Except.ok L := by
  cases hr : result.raw_responses with
  | none => exact ⟨[], by simp [extract_tool_executions, hr]⟩
  | some rs =>
    have h' : ∀ r ∈ rs, ∀ it ∈ r.output.getD [], bad_item it = false := by
      rw [no_bad_items, hr, List.all_eq_true] at h
      intro r hrr it hit
      have h2 := h r hrr
      rw [List.all_eq_true] at h2
      simpa using h2 it hit
    obtain ⟨L, hL⟩ := raw_responses_loop_isOk loads rs h'
    exact ⟨L, by simp [extract_tool_executions, hr, hL]⟩

/-- Instantiation of the amended C5 theorem: a heavily partial input
(missing output, missing usage, items missing every attribute) still
yields a normal return. -/
theorem C5_graceful_degradation_witness :
    no_bad_items
      { raw_responses := some
          [ { output := none, usage := none },
            { output := some
                [ { name := none, arguments := none, call_id := none },
                  { name := some "t", arguments := some (PyArg.str "x")
                    call_id := none } ]
              usage := none } ]
        final_output := none, str_repr := "r" } = true
    ∧ ∃ L, extract_tool_executions loads0
        { raw_responses := some
            [ { output := none, usage := none },
              { output := some
                  [ { name := none, arguments := none, call_id := none },
                    { name := some "t", arguments := some (PyArg.str "x")
                      call_id := none } ]
                usage := none } ]
          final_output := none, str_repr := "r" } = Except.ok L :=
  ⟨rfl, C5_graceful_degradation loads0
    { raw_responses := some
        [ { output := none, usage := none },
          { output := some
              [ { name := none, arguments := none, call_id := none },
                { name := some "t", arguments := some (PyArg.str "x")
                  call_id := none } ]
            usage := none } ]
      final_output := none, str_repr := "r" } rfl⟩

/-- Claim C6: the inline tool-execution extraction of the interactive
surface (`stream_response` in `src/streamlit.py`) produces exactly the
same result as the service frontend's `extract_tool_executions` on every
result object — including the same uncaught-error behaviour. -/
theorem C6_shared_extraction_semantics (loads : String → Option Json)
    (result : RunResult) :
    streamlit_tool_executions loads result =
      extract_tool_executions loads result := by
  cases hr : result.raw_responses with
  | none => simp [streamlit_tool_executions, extract_tool_executions, hr]
  | some rs =>
    simp [streamlit_tool_executions, extract_tool_executions, hr,
          streamlit_responses_eq]

/-- Claim C7: an empty or whitespace-only `message` form field yields the
enter-a-message error fragment, whatever the agent availability and
whatever the run would return (the run is never consulted). -/
theorem C7_empty_message_error (loads : String → Option Json)
    (form : FormData) (agent_available : Bool) (run : String → RunOutcome)
    (h : py_strip (form.message.getD "") = "") :
    chat loads agent_available form run =
      ChatResponse.errorFragment msg_enter_message := by
  simp [chat, chat_question, h]

/-- Instantiation of the C7 theorem: a whitespace-only message, an
available agent, and a run that would succeed. -/
theorem C7_empty_message_error_witness :
    chat loads0 true { message := some "   " }
      (fun q => RunOutcome.ok
        { raw_responses := none, final_output := some q, str_repr := "r" }) =
      ChatResponse.errorFragment msg_enter_message :=
  C7_empty_message_error loads0 { message := some "   " } true
    (fun q => RunOutcome.ok
      { raw_responses := none, final_output := some q, str_repr := "r" }) rfl

/-- Claim C8: when the agent run raises, the handler returns the specific
rate-limit error message if the error text contains the rate-limit
indicator substring, and the generic execution-error prefix with the raw
text appended otherwise — in both cases a rendered error fragment, never
a propagated exception. -/
theorem C8_run_error_taxonomy (loads : String → Option Json)
    (form : FormData) (run : String → RunOutcome) (m : String)
    (hne : chat_question form ≠ "")
    (hrun : run (chat_question form) = RunOutcome.raises m) :
    chat loads true form run =
      (if py_in rate_limit_indicator m then
        ChatResponse.errorFragment msg_rate_limit
      else
        ChatResponse.errorFragment ("実行エラー: " ++ m)) := by
  cases hpy : py_in rate_limit_indicator m <;>
    simp [chat, chat_exception_response, hne, hrun, hpy]

/-- Instantiation of the C8 theorem at a rate-limit error text. -/
theorem C8_run_error_taxonomy_witness :
    chat loads0 true { message := some "hello" }
      (fun _ => RunOutcome.raises "Error code 429: RateLimitReached") =
      (if py_in rate_limit_indicator "Error code 429: RateLimitReached" then
        ChatResponse.errorFragment msg_rate_limit
      else
        ChatResponse.errorFragment
          ("実行エラー: " ++ "Error code 429: RateLimitReached")) :=
  C8_run_error_taxonomy loads0 { message := some "hello" }
    (fun _ => RunOutcome.raises "Error code 429: RateLimitReached")
    "Error code 429: RateLimitReached" (by decide) rfl

/-- Claim C9: the configuration payload rendered by `GET /` equals the one
rendered by `GET /api/settings`, and neither depends on the API-key value:
for every pair of key values the payloads coincide (they carry only
presence booleans for endpoint and deployment, never the secret). -/
theorem C9_config_payload_no_secret (env : Env) (k k' : Option String) :
    read_root_config env = get_settings_config env
    ∧ read_root_config { env with azure_openai_api_key := k } =
        read_root_config { env with azure_openai_api_key := k' }
    ∧ get_settings_config { env with azure_openai_api_key := k } =
        get_settings_config { env with azure_openai_api_key := k' } :=
  ⟨rfl, rfl, rfl⟩

/-- Claim C10: the question the handler passes to the agent run is the
submitted message stripped of leading/trailing whitespace — the handler's
output depends on the run only through its value at that stripped text —
and a form with no `message` field behaves exactly like an empty message,
yielding the empty-message error fragment. -/
theorem C10_stripped_question (loads : String → Option Json)
    (agent_available : Bool) (form : FormData)
    (run run' : String → RunOutcome)
    (h : run (py_strip (form.message.getD "")) =
      run' (py_strip (form.message.getD ""))) :
    chat loads agent_available form run = chat loads agent_available form run'
    ∧ chat loads agent_available { message := none } run =
        chat loads agent_available { message := some "" } run
    ∧ chat loads agent_available { message := none } run =
        ChatResponse.errorFragment msg_enter_message := by
  refine ⟨?_, rfl, rfl⟩
  simp only [chat, chat_question]
  rw [h]

/-- Instantiation of the C10 theorem: two runs agreeing on the stripped
message, and a form with no message field. -/
theorem C10_stripped_question_witness :
    chat loads0 true { message := some " hi " }
        (fun _ => RunOutcome.raises "x") =
      chat loads0 true { message := some " hi " }
        (fun q => if q = "hi" then RunOutcome.raises "x"
                  else RunOutcome.raises "other")
    ∧ chat loads0 true { message := none } (fun _ => RunOutcome.raises "x") =
        chat loads0 true { message := some "" }
          (fun _ => RunOutcome.raises "x")
    ∧ chat loads0 true { message := none } (fun _ => RunOutcome.raises "x") =
        ChatResponse.errorFragment msg_enter_message :=
  C10_stripped_question loads0 true { message := some " hi " }
    (fun _ => RunOutcome.raises "x")
    (fun q => if q = "hi" then RunOutcome.raises "x"
              else RunOutcome.raises "other")
    rfl

/-- Instantiation of the C4 theorem: three records — one qualifying item,
a record with no output, and a record holding a non-qualifying item
followed by a duplicate of the first item — produce the duplicate-kept,
order-preserving concatenation of length two. -/
theorem C4_ordered_concatenation_witness :
    ([ { name := "t", arguments := ArgsValue.raw "x", call_id := "c" },
       { name := "t", arguments := ArgsValue.raw "x", call_id := "c" } ] :
        List ToolExecution) =
      ([ { output := some
             [ { name := some "t", arguments := some (PyArg.str "x")
                 call_id := some "c" } ]
           usage := none },
         { output := none, usage := none },
         { output := some
             [ { name := none, arguments := some (PyArg.str "y")
                 call_id := none },
               { name := some "t", arguments := some (PyArg.str "x")
                 call_id := some "c" } ]
           usage := none } ] : List RawResponse).flatMap
        (fun r => (r.output.getD []).filterMap (qualifying_exec loads0))
    ∧ ([ { name := "t", arguments := ArgsValue.raw "x", call_id := "c" },
         { name := "t", arguments := ArgsValue.raw "x", call_id := "c" } ] :
          List ToolExecution).length =
      (([ { output := some
              [ { name := some "t", arguments := some (PyArg.str "x")
                  call_id := some "c" } ]
            usage := none },
          { output := none, usage := none },
          { output := some
              [ { name := none, arguments := some (PyArg.str "y")
                  call_id := none },
                { name := some "t", arguments := some (PyArg.str "x")
                  call_id := some "c" } ]
            usage := none } ] : List RawResponse).flatMap
          (fun r => r.output.getD [])).countP
        (fun it => it.name.isSome && it.arguments.isSome) :=
  C4_ordered_concatenation loads0
    [ { output := some
          [ { name := some "t", arguments := some (PyArg.str "x")
              call_id := some "c" } ]
        usage := none },
      { output := none, usage := none },
      { output := some
          [ { name := none, arguments := some (PyArg.str "y")
              call_id := none },
            { name := some "t", arguments := some (PyArg.str "x")
              call_id := some "c" } ]
        usage := none } ]
    none "r"
    [ { name := "t", arguments := ArgsValue.raw "x", call_id := "c" },
      { name := "t", arguments := ArgsValue.raw "x", call_id := "c" } ]
    rfl
